import Mathlib

/-!
Verification model of the registry / session-lifecycle core of the
playwright-ts-multipleusers test framework.

Object identity (JavaScript reference equality) is modelled by numeric
object ids drawn from an allocation counter (the "world") which is
threaded through every operation that constructs a fresh object.  A
factory is a world transformer that either returns a value (the id of
the object it built) or throws; running a factory may allocate, so it
also returns the updated world.  Exceptions are modelled by
`Except String`.
-/

/-- Insertion-ordered, unique-keyed association list modelling the
JavaScript `Map<string, any>` used as the registry caches
(`private cache: Map<string, any> = new Map()`).  Values are object ids. -/
abbrev Cache := List (String × Nat)

namespace Cache

/-- Model of `Map.prototype.has`. -/
def has : Cache → String → Bool
  | [], _ => false
  | (k', _) :: rest, k => k' == k || has rest k

/-- Model of `Map.prototype.get`; an absent key gives `undefined`,
modelled as `none`. -/
def get : Cache → String → Option Nat
  | [], _ => none
  | (k', v') :: rest, k => if k' == k then some v' else get rest k

/-- Model of `Map.prototype.set`: replaces the value of an existing key
in place, otherwise appends a new entry (JS Maps keep insertion order). -/
def set : Cache → String → Nat → Cache
  | [], k, v => [(k, v)]
  | (k', v') :: rest, k, v =>
      if k' == k then (k', v) :: rest else (k', v') :: set rest k v

/-- Model of `Map.prototype.clear`. -/
def clear (_ : Cache) : Cache := []

/-- Model of `Array.from(this.cache.keys())` as used by
`getCachedPages` / `getCachedServices`. -/
def keys (c : Cache) : List String := c.map Prod.fst

end Cache

/-- A factory passed to `getPage`/`getService`: invoked on the current
world, it either returns the id of the object it constructed together
with the new world, or throws. -/
abbrev Factory := Nat → Except String Nat × Nat

/-- Model of `page.registry.ts` class `PageRegistry`: an object id, the
borrowed page handle, and the private cache. -/
structure PageRegistry where
  rid : Nat
  page : Nat
  cache : Cache
  deriving Repr, DecidableEq

/-- Model of `new HomePage(this.page)`: allocates a fresh object. -/
def newHomePage (_page w : Nat) : Nat × Nat := (w, w + 1)

/-- Model of `createPageRegistry(page)` = `new PageRegistry(page)`. -/
def createPageRegistry (p w : Nat) : PageRegistry × Nat := (⟨w, p, []⟩, w + 1)

/-- Model of the `home` getter of `PageRegistry`: lazy fill of key
`"home"` with a freshly constructed `HomePage`. -/
def PageRegistry.home (r : PageRegistry) (w : Nat) :
    Option Nat × PageRegistry × Nat :=
  if r.cache.has "home" then (r.cache.get "home", r, w)
  else
    let fresh := newHomePage r.page w
    let c := r.cache.set "home" fresh.1
    (c.get "home", { r with cache := c }, fresh.2)

/-- Model of `PageRegistry.getPage<T>(key, factory)`:
if the key is absent the factory is invoked; if it throws, the exception
propagates and the cache is untouched; otherwise the result is stored and
`this.cache.get(key)` is returned. -/
def PageRegistry.getPage (r : PageRegistry) (k : String) (f : Factory)
    (w : Nat) : Except String (Option Nat) × PageRegistry × Nat :=
  if r.cache.has k then (Except.ok (r.cache.get k), r, w)
  else
    match f w with
    | (Except.error e, w') => (Except.error e, r, w')
    | (Except.ok v, w') =>
        let c := r.cache.set k v
        (Except.ok (c.get k), { r with cache := c }, w')

/-- Model of `PageRegistry.clearCache()`. -/
def PageRegistry.clearCache (r : PageRegistry) : PageRegistry :=
  { r with cache := r.cache.clear }

/-- Model of `PageRegistry.getCachedPages()`. -/
def PageRegistry.getCachedPages (r : PageRegistry) : List String :=
  r.cache.keys

/-- Model of `PageRegistry.isCached(key)`. -/
def PageRegistry.isCached (r : PageRegistry) (k : String) : Bool :=
  r.cache.has k

/-- Model of `service.registry.ts` class `ServiceRegistry`. -/
structure ServiceRegistry where
  rid : Nat
  page : Nat
  cache : Cache
  deriving Repr, DecidableEq

/-- Model of `createShadowHelper(this.page)`: allocates a fresh object. -/
def createShadowHelper (_page w : Nat) : Nat × Nat := (w, w + 1)

/-- Model of `createWaitHelpers(this.page)`: allocates a fresh object. -/
def createWaitHelpers (_page w : Nat) : Nat × Nat := (w, w + 1)

/-- Model of `createAssertions(this.page)`: allocates a fresh object. -/
def createAssertions (_page w : Nat) : Nat × Nat := (w, w + 1)

/-- Model of `createMicrosoftAuthHelper(this.page)`: allocates a fresh
object. -/
def createMicrosoftAuthHelper (_page w : Nat) : Nat × Nat := (w, w + 1)

/-- Model of `new UserApiClient()`: allocates a fresh object. -/
def newUserApiClient (w : Nat) : Nat × Nat := (w, w + 1)

/-- Model of `createServiceRegistry(page)` = `new ServiceRegistry(page)`. -/
def createServiceRegistry (p w : Nat) : ServiceRegistry × Nat :=
  (⟨w, p, []⟩, w + 1)

/-- Model of the `shadow` getter of `ServiceRegistry`. -/
def ServiceRegistry.shadow (r : ServiceRegistry) (w : Nat) :
    Option Nat × ServiceRegistry × Nat :=
  if r.cache.has "shadow" then (r.cache.get "shadow", r, w)
  else
    let fresh := createShadowHelper r.page w
    let c := r.cache.set "shadow" fresh.1
    (c.get "shadow", { r with cache := c }, fresh.2)

/-- Model of the `waits` getter of `ServiceRegistry`. -/
def ServiceRegistry.waits (r : ServiceRegistry) (w : Nat) :
    Option Nat × ServiceRegistry × Nat :=
  if r.cache.has "waits" then (r.cache.get "waits", r, w)
  else
    let fresh := createWaitHelpers r.page w
    let c := r.cache.set "waits" fresh.1
    (c.get "waits", { r with cache := c }, fresh.2)

/-- Model of the `assertions` getter of `ServiceRegistry`. -/
def ServiceRegistry.assertions (r : ServiceRegistry) (w : Nat) :
    Option Nat × ServiceRegistry × Nat :=
  if r.cache.has "assertions" then (r.cache.get "assertions", r, w)
  else
    let fresh := createAssertions r.page w
    let c := r.cache.set "assertions" fresh.1
    (c.get "assertions", { r with cache := c }, fresh.2)

/-- Model of the `auth` getter of `ServiceRegistry`. -/
def ServiceRegistry.auth (r : ServiceRegistry) (w : Nat) :
    Option Nat × ServiceRegistry × Nat :=
  if r.cache.has "auth" then (r.cache.get "auth", r, w)
  else
    let fresh := createMicrosoftAuthHelper r.page w
    let c := r.cache.set "auth" fresh.1
    (c.get "auth", { r with cache := c }, fresh.2)

/-- Model of the `userApi` getter of `ServiceRegistry`. -/
def ServiceRegistry.userApi (r : ServiceRegistry) (w : Nat) :
    Option Nat × ServiceRegistry × Nat :=
  if r.cache.has "userApi" then (r.cache.get "userApi", r, w)
  else
    let fresh := newUserApiClient w
    let c := r.cache.set "userApi" fresh.1
    (c.get "userApi", { r with cache := c }, fresh.2)

/-- Model of `ServiceRegistry.getService<T>(key, factory)`: same code
shape as `PageRegistry.getPage`. -/
def ServiceRegistry.getService (r : ServiceRegistry) (k : String)
    (f : Factory) (w : Nat) :
    Except String (Option Nat) × ServiceRegistry × Nat :=
  if r.cache.has k then (Except.ok (r.cache.get k), r, w)
  else
    match f w with
    | (Except.error e, w') => (Except.error e, r, w')
    | (Except.ok v, w') =>
        let c := r.cache.set k v
        (Except.ok (c.get k), { r with cache := c }, w')

/-- Model of `ServiceRegistry.setService<T>(key, service)`:
unconditional `this.cache.set(key, service)`. -/
def ServiceRegistry.setService (r : ServiceRegistry) (k : String)
    (v : Nat) : ServiceRegistry :=
  { r with cache := r.cache.set k v }

/-- Model of `ServiceRegistry.clearCache()`. -/
def ServiceRegistry.clearCache (r : ServiceRegistry) : ServiceRegistry :=
  { r with cache := r.cache.clear }

/-- Model of `ServiceRegistry.getCachedServices()`. -/
def ServiceRegistry.getCachedServices (r : ServiceRegistry) : List String :=
  r.cache.keys

/-- Model of `ServiceRegistry.isCached(key)`. -/
def ServiceRegistry.isCached (r : ServiceRegistry) (k : String) : Bool :=
  r.cache.has k

/-- Model of `app.registry.ts` class `AppRegistry`: the borrowed page
plus the two namespace registries created in its constructor. -/
structure AppRegistry where
  rid : Nat
  page : Nat
  pages : PageRegistry
  services : ServiceRegistry
  deriving Repr, DecidableEq

/-- Model of `createAppRegistry(page)` = `new AppRegistry(page)`:
allocates the `AppRegistry` object itself, then its constructor runs
`createPageRegistry(page)` and `createServiceRegistry(page)`. -/
def createAppRegistry (p w : Nat) : AppRegistry × Nat :=
  let rid := w
  let pr := createPageRegistry p (w + 1)
  let sr := createServiceRegistry p pr.2
  (⟨rid, p, pr.1, sr.1⟩, sr.2)

/-- Model of `AppRegistry.getPage()` (returns the underlying page). -/
def AppRegistry.getPage (r : AppRegistry) : Nat := r.page

/-- Model of `AppRegistry.clearAll()`: forwards `clearCache` to both
namespaces. -/
def AppRegistry.clearAll (r : AppRegistry) : AppRegistry :=
  { r with pages := r.pages.clearCache, services := r.services.clearCache }

/-- Result record of `AppRegistry.getCacheStats()`. -/
structure CacheStats where
  pages : List String
  services : List String
  total : Nat
  deriving Repr, DecidableEq

/-- Model of `AppRegistry.getCacheStats()`. -/
def AppRegistry.getCacheStats (r : AppRegistry) : CacheStats :=
  let ps := r.pages.getCachedPages
  let ss := r.services.getCachedServices
  ⟨ps, ss, ps.length + ss.length⟩

/-- Model of the statement `registry.pages.clearCache()` performed on an
`AppRegistry`: only the pages namespace is touched. -/
def AppRegistry.clearPagesNamespace (r : AppRegistry) : AppRegistry :=
  { r with pages := r.pages.clearCache }

/-- Model of the statement `registry.services.clearCache()` performed on
an `AppRegistry`: only the services namespace is touched. -/
def AppRegistry.clearServicesNamespace (r : AppRegistry) : AppRegistry :=
  { r with services := r.services.clearCache }

/-- Model of `app.registry.ts` class `MultiUserRegistry`. -/
structure MultiUserRegistry where
  rid : Nat
  user1 : AppRegistry
  user2 : AppRegistry
  user3 : AppRegistry
  deriving Repr, DecidableEq

/-- Model of `createMultiUserRegistry(p1, p2, p3)` =
`new MultiUserRegistry(p1, p2, p3)`: allocates the composer object, then
its constructor runs `createAppRegistry` on each handed page. -/
def createMultiUserRegistry (p1 p2 p3 w : Nat) : MultiUserRegistry × Nat :=
  let rid := w
  let u1 := createAppRegistry p1 (w + 1)
  let u2 := createAppRegistry p2 u1.2
  let u3 := createAppRegistry p3 u2.2
  (⟨rid, u1.1, u2.1, u3.1⟩, u3.2)

/-- Model of `MultiUserRegistry.clearAll()`: forwards to every member. -/
def MultiUserRegistry.clearAll (m : MultiUserRegistry) : MultiUserRegistry :=
  { m with
      user1 := m.user1.clearAll
      user2 := m.user2.clearAll
      user3 := m.user3.clearAll }

/-- Result record of `MultiUserRegistry.getCacheStats()`. -/
structure MultiStats where
  user1 : CacheStats
  user2 : CacheStats
  user3 : CacheStats
  deriving Repr, DecidableEq

/-- Model of `MultiUserRegistry.getCacheStats()`. -/
def MultiUserRegistry.getCacheStats (m : MultiUserRegistry) : MultiStats :=
  ⟨m.user1.getCacheStats, m.user2.getCacheStats, m.user3.getCacheStats⟩

/-- Claim C4's invariant, formalised: constructing the composer creates
no objects of its own (the allocation counter is unchanged), i.e. the
composer is handed already-constructed registries rather than creating
them itself. -/
def composerNeverCreatesRegistries : Prop :=
  ∀ p1 p2 p3 w, (createMultiUserRegistry p1 p2 p3 w).2 = w

/-- One registry operation of a `ServiceRegistry`: the five named
accessors, the generic `getService`, `setService`, and `clearCache`. -/
inductive SOp where
  | shadow
  | waits
  | assertions
  | auth
  | userApi
  | getS (k : String) (f : Factory)
  | setS (k : String) (v : Nat)
  | clear

/-- Whether an operation is a `setService`. -/
def SOp.isSetS : SOp → Bool
  | .setS _ _ => true
  | _ => false

/-- Apply one `ServiceRegistry` operation, discarding its return value. -/
def applySOp (r : ServiceRegistry) (w : Nat) : SOp → ServiceRegistry × Nat
  | .shadow => ((r.shadow w).2.1, (r.shadow w).2.2)
  | .waits => ((r.waits w).2.1, (r.waits w).2.2)
  | .assertions => ((r.assertions w).2.1, (r.assertions w).2.2)
  | .auth => ((r.auth w).2.1, (r.auth w).2.2)
  | .userApi => ((r.userApi w).2.1, (r.userApi w).2.2)
  | .getS k f => ((r.getService k f w).2.1, (r.getService k f w).2.2)
  | .setS k v => (r.setService k v, w)
  | .clear => (r.clearCache, w)

/-- The value at key `k` after operation `op` was produced by a
successful factory invocation for `k` performed by `op` at world `w`
(the named accessors construct the fresh object with id `w`). -/
def producedByFactory : SOp → String → Nat → Option Nat → Prop
  | .shadow, k, w, res => k = "shadow" ∧ res = some w
  | .waits, k, w, res => k = "waits" ∧ res = some w
  | .assertions, k, w, res => k = "assertions" ∧ res = some w
  | .auth, k, w, res => k = "auth" ∧ res = some w
  | .userApi, k, w, res => k = "userApi" ∧ res = some w
  | .getS k' f, k, w, res =>
      k = k' ∧ ∃ v w', f w = (Except.ok v, w') ∧ res = some v
  | .setS _ _, _, _, _ => False
  | .clear, _, _, _ => False

/-- One registry operation of a `PageRegistry`: the named `home`
accessor, the generic `getPage`, and `clearCache`. -/
inductive POp where
  | home
  | getP (k : String) (f : Factory)
  | clear

/-- Apply one `PageRegistry` operation, discarding its return value. -/
def applyPOp (q : PageRegistry) (w : Nat) : POp → PageRegistry × Nat
  | .home => ((q.home w).2.1, (q.home w).2.2)
  | .getP k f => ((q.getPage k f w).2.1, (q.getPage k f w).2.2)
  | .clear => (q.clearCache, w)

/-- The value at key `k` after page operation `op` was produced by a
successful factory invocation for `k` performed by `op` at world `w`. -/
def producedByPageFactory : POp → String → Nat → Option Nat → Prop
  | .home, k, w, res => k = "home" ∧ res = some w
  | .getP k' f, k, w, res =>
      k = k' ∧ ∃ v w', f w = (Except.ok v, w') ∧ res = some v
  | .clear, _, _, _ => False

/-- Claim C3's state machine, formalised over the service-registry
operations: a Present key is never replaced by a different value, an
Absent key only becomes Present through a successful factory invocation
by the operation itself, and a Present key only becomes Absent through
an explicit clear. -/
def perKeyOnlyLegalTransitions : Prop :=
  ∀ (r : ServiceRegistry) (w : Nat) (op : SOp) (k : String),
    (∀ v v', r.cache.get k = some v →
        ((applySOp r w op).1).cache.get k = some v' → v' = v) ∧
    (r.cache.get k = none → ((applySOp r w op).1).cache.get k ≠ none →
        producedByFactory op k w (((applySOp r w op).1).cache.get k)) ∧
    (∀ v, r.cache.get k = some v →
        ((applySOp r w op).1).cache.get k = none → op = SOp.clear)

/-- Outcome of one run of `authenticateUser` in `tests/global-setup.ts`:
the propagated result, whether `authHelper.login` was invoked, and the
credential-artifact state afterwards (`some t` = a file whose mtime is
`t` milliseconds). -/
structure SetupOutcome where
  result : Except String Unit
  loginInvoked : Bool
  fsAfter : Option Nat
  deriving Repr

/-- Model of `(Date.now() - stats.mtimeMs) / (1000 * 60 * 60)` from
`tests/global-setup.ts`. -/
def hoursSinceModified (now mtimeMs : Nat) : ℚ :=
  ((now : ℚ) - (mtimeMs : ℚ)) / (1000 * 60 * 60)

/-- Model of the part of `authenticateUser` after the freshness check:
open a fresh context, navigate, probe the Login button
(`loginVisible`); if visible, run the SSO login (outcome `loginResult`,
a throw propagates before the save); finally `context.storageState`
writes the artifact with the current time. -/
def authAfterCheck (artifact : Option Nat) (now : Nat)
    (loginVisible : Bool) (loginResult : Except String Unit) :
    SetupOutcome :=
  if loginVisible then
    match loginResult with
    | Except.error e => ⟨Except.error e, true, artifact⟩
    | Except.ok _ => ⟨Except.ok (), true, some now⟩
  else ⟨Except.ok (), false, some now⟩

/-- Model of `authenticateUser` in `tests/global-setup.ts`: if the
artifact exists and `hoursSinceModified < 12`, it is reused and the
function returns early; otherwise the login-and-save path runs. -/
def authenticateUser (artifact : Option Nat) (now : Nat)
    (loginVisible : Bool) (loginResult : Except String Unit) :
    SetupOutcome :=
  match artifact with
  | some mtime =>
      if hoursSinceModified now mtime < 12 then
        ⟨Except.ok (), false, some mtime⟩
      else authAfterCheck artifact now loginVisible loginResult
  | none => authAfterCheck artifact now loginVisible loginResult

/-- Claim C7's freshness policy, formalised as stated: an artifact less
than 12 hours old is reused without invoking the login flow; an
artifact 12 hours old or more causes the login flow to run and a fresh
artifact to be written. -/
def freshnessPolicyAsStated : Prop :=
  ∀ (mtime now : Nat) (lv : Bool) (lr : Except String Unit),
    (hoursSinceModified now mtime < 12 →
        authenticateUser (some mtime) now lv lr =
          ⟨Except.ok (), false, some mtime⟩) ∧
    (12 ≤ hoursSinceModified now mtime →
        (authenticateUser (some mtime) now lv lr).loginInvoked = true ∧
        (authenticateUser (some mtime) now lv lr).fsAfter = some now)

/-- The email-input selectors tried by `MicrosoftSSOHelper.enterEmail`. -/
def emailSelectors : List String :=
  ["input[type=\"email\"]", "input[name=\"loginfmt\"]",
   "input[placeholder*=\"email\" i]", "#i0116"]

/-- The selectors tried by `MicrosoftSSOHelper.clickNext`. -/
def nextSelectors : List String :=
  ["input[type=\"submit\"][value=\"Next\"]", "button:has-text(\"Next\")",
   "#idSIButton9"]

/-- Model of `MicrosoftSSOHelper.clickNext`: click the first visible
"Next" selector, else throw. -/
def clickNext (visible : String → Bool) : Except String Unit :=
  match nextSelectors.find? visible with
  | some _ => Except.ok ()
  | none => Except.error "Could not find \"Next\" button"

/-- The selector loop of `MicrosoftSSOHelper.enterEmail`: for each email
selector, if it is visible, fill it and click Next; any exception inside
the try (including one thrown by `clickNext`) is caught and the loop
continues; if the loop exhausts, throw. -/
def enterEmailLoop (ev nv : String → Bool) :
    List String → Except String Unit
  | [] => Except.error "Could not find email input field"
  | s :: rest =>
      if ev s then
        match clickNext nv with
        | Except.ok _ => Except.ok ()
        | Except.error _ => enterEmailLoop ev nv rest
      else enterEmailLoop ev nv rest

/-- Model of `MicrosoftSSOHelper.enterEmail`, over the visibility of the
email selectors (`ev`) and of the Next-button selectors (`nv`). -/
def enterEmail (ev nv : String → Bool) : Except String Unit :=
  enterEmailLoop ev nv emailSelectors

/-- Outcome of the `user1Page` fixture body: the page id handed to the
test, whether the Microsoft SSO login flow was invoked, and whether the
Login button was clicked (the navigation toward the identity provider). -/
structure FixtureOutcome where
  page : Nat
  ssoLoginInvoked : Bool
  loginButtonClicked : Bool
  deriving Repr, DecidableEq

/-- Model of the `user1Page` fixture of
`authenticated-multi-user.fixture.ts` (user2/user3 are identical):
navigate, probe the Login button; if visible and credentials are
configured, click it and run the SSO login (a throw propagates);
otherwise the page is handed over unchanged with no login attempt. -/
def user1PageFixture (p : Nat) (loginVisible credsConfigured : Bool)
    (loginResult : Except String Unit) : Except String FixtureOutcome :=
  if loginVisible then
    if credsConfigured then
      match loginResult with
      | Except.ok _ => Except.ok ⟨p, true, true⟩
      | Except.error e => Except.error e
    else Except.ok ⟨p, false, false⟩
  else Except.ok ⟨p, false, false⟩

/-- The registries constructed by the fixture file for one test that
requests `user1Registry`, `user2Registry`, `user3Registry`, and the
combined `registry` fixture. -/
structure FixtureWorld where
  user1Registry : AppRegistry
  user2Registry : AppRegistry
  user3Registry : AppRegistry
  registry : MultiUserRegistry
  deriving Repr, DecidableEq

/-- Model of the fixture wiring: `userNRegistry` runs
`createAppRegistry(userNPage)` and the combined `registry` fixture runs
`createMultiUserRegistry(user1Page, user2Page, user3Page)` over the same
pages. -/
def setupFixtures (p1 p2 p3 w : Nat) : FixtureWorld × Nat :=
  let r1 := createAppRegistry p1 w
  let r2 := createAppRegistry p2 r1.2
  let r3 := createAppRegistry p3 r2.2
  let m := createMultiUserRegistry p1 p2 p3 r3.2
  (⟨r1.1, r2.1, r3.1, m.1⟩, m.2)

/-- Effect of `registry.clearAll()` (the composer fixture) on the whole
fixture world. -/
def FixtureWorld.composerClearAll (fw : FixtureWorld) : FixtureWorld :=
  { fw with registry := fw.registry.clearAll }

/-- Effect of clearing every per-user fixture registry on the whole
fixture world. -/
def FixtureWorld.usersClearAll (fw : FixtureWorld) : FixtureWorld :=
  { fw with
      user1Registry := fw.user1Registry.clearAll
      user2Registry := fw.user2Registry.clearAll
      user3Registry := fw.user3Registry.clearAll }

/-! ### Basic cache lemmas -/

theorem Cache.get_set_self (c : Cache) (k : String) (v : Nat) :
    (c.set k v).get k = some v := by
  induction c with
  | nil => simp [Cache.set, Cache.get]
  | cons hd tl ih =>
    obtain ⟨k', v'⟩ := hd
    by_cases h : k' = k
    · simp [Cache.set, Cache.get, h]
    · simp [Cache.set, Cache.get, h, ih]

theorem Cache.get_set_ne (c : Cache) (kset kget : String) (v : Nat)
    (h : kget ≠ kset) : (c.set kset v).get kget = c.get kget := by
  induction c with
  | nil => simp [Cache.set, Cache.get, Ne.symm h]
  | cons hd tl ih =>
    obtain ⟨k', v'⟩ := hd
    by_cases h1 : k' = kset
    · subst h1
      simp [Cache.set, Cache.get, Ne.symm h]
    · simp [Cache.set, Cache.get, h1, ih]

theorem Cache.has_eq_isSome (c : Cache) (k : String) :
    c.has k = (c.get k).isSome := by
  induction c with
  | nil => simp [Cache.has, Cache.get]
  | cons hd tl ih =>
    obtain ⟨k', v'⟩ := hd
    by_cases h : k' = k <;> simp [Cache.has, Cache.get, h, ih]

theorem Cache.get_eq_none_of_has_false (c : Cache) (k : String)
    (h : c.has k = false) : c.get k = none := by
  have := Cache.has_eq_isSome c k
  rw [h] at this
  exact Option.not_isSome_iff_eq_none.mp (by rw [← this]; simp)

theorem Cache.has_set_self (c : Cache) (k : String) (v : Nat) :
    (c.set k v).has k = true := by
  rw [Cache.has_eq_isSome, Cache.get_set_self]
  rfl

/-- Frame/production lemma for the lazy-fill pattern
`if cache.has(k0) then cache else cache.set(k0, v0)` shared by every
accessor: at any key, a present value is preserved, and an absent key
becomes present only at `k0`, with exactly the value `v0`. -/
theorem Cache.lazy_fill_step (c : Cache) (k0 k : String) (v0 : Nat) :
    (∀ v v', c.get k = some v →
        (if c.has k0 then c else c.set k0 v0).get k = some v' → v' = v) ∧
    (c.get k = none →
        (if c.has k0 then c else c.set k0 v0).get k ≠ none →
        k = k0 ∧ (if c.has k0 then c else c.set k0 v0).get k = some v0) ∧
    (∀ v, c.get k = some v →
        (if c.has k0 then c else c.set k0 v0).get k ≠ none) := by
  by_cases h0 : c.has k0
  · simp only [h0, if_true]
    refine ⟨fun v v' h1 h2 => ?_, fun h1 h2 => absurd h1 h2, fun v h1 => ?_⟩
    · rw [h1] at h2; exact (Option.some_inj.mp h2).symm
    · rw [h1]; simp
  · simp only [h0, if_false, Bool.false_eq_true]
    by_cases hk : k = k0
    · subst hk
      have hnone : c.get k = none :=
        Cache.get_eq_none_of_has_false c k (by simpa using h0)
      refine ⟨fun v v' h1 _ => ?_, fun _ _ => ⟨rfl, ?_⟩, fun v h1 _ => ?_⟩
      · rw [hnone] at h1; cases h1
      · exact Cache.get_set_self c k v0
      · rw [hnone] at h1; cases h1
    · have heq := Cache.get_set_ne c k0 k v0 hk
      refine ⟨fun v v' h1 h2 => ?_, fun h1 h2 => ?_, fun v h1 => ?_⟩
      · rw [heq, h1] at h2; exact (Option.some_inj.mp h2).symm
      · rw [heq] at h2; exact absurd h1 h2
      · rw [heq, h1]; simp

/-! ### Per-operation cache characterisations -/

theorem applySOp_shadow_cache (r : ServiceRegistry) (w : Nat) :
    ((applySOp r w SOp.shadow).1).cache =
      if r.cache.has "shadow" then r.cache else r.cache.set "shadow" w := by
  by_cases h : r.cache.has "shadow" <;>
    simp [applySOp, ServiceRegistry.shadow, createShadowHelper, h]

theorem applySOp_waits_cache (r : ServiceRegistry) (w : Nat) :
    ((applySOp r w SOp.waits).1).cache =
      if r.cache.has "waits" then r.cache else r.cache.set "waits" w := by
  by_cases h : r.cache.has "waits" <;>
    simp [applySOp, ServiceRegistry.waits, createWaitHelpers, h]

theorem applySOp_assertions_cache (r : ServiceRegistry) (w : Nat) :
    ((applySOp r w SOp.assertions).1).cache =
      if r.cache.has "assertions" then r.cache
      else r.cache.set "assertions" w := by
  by_cases h : r.cache.has "assertions" <;>
    simp [applySOp, ServiceRegistry.assertions, createAssertions, h]

theorem applySOp_auth_cache (r : ServiceRegistry) (w : Nat) :
    ((applySOp r w SOp.auth).1).cache =
      if r.cache.has "auth" then r.cache else r.cache.set "auth" w := by
  by_cases h : r.cache.has "auth" <;>
    simp [applySOp, ServiceRegistry.auth, createMicrosoftAuthHelper, h]

theorem applySOp_userApi_cache (r : ServiceRegistry) (w : Nat) :
    ((applySOp r w SOp.userApi).1).cache =
      if r.cache.has "userApi" then r.cache
      else r.cache.set "userApi" w := by
  by_cases h : r.cache.has "userApi" <;>
    simp [applySOp, ServiceRegistry.userApi, newUserApiClient, h]

theorem applySOp_getS_ok_cache (r : ServiceRegistry) (w : Nat) (k : String)
    (f : Factory) (v w2 : Nat) (hf : f w = (Except.ok v, w2)) :
    ((applySOp r w (SOp.getS k f)).1).cache =
      if r.cache.has k then r.cache else r.cache.set k v := by
  by_cases h : r.cache.has k <;>
    simp [applySOp, ServiceRegistry.getService, h, hf]

theorem applySOp_getS_err_cache (r : ServiceRegistry) (w : Nat) (k : String)
    (f : Factory) (e : String) (w2 : Nat)
    (hf : f w = (Except.error e, w2)) :
    ((applySOp r w (SOp.getS k f)).1).cache = r.cache := by
  by_cases h : r.cache.has k <;>
    simp [applySOp, ServiceRegistry.getService, h, hf]

theorem applyPOp_home_cache (q : PageRegistry) (w : Nat) :
    ((applyPOp q w POp.home).1).cache =
      if q.cache.has "home" then q.cache else q.cache.set "home" w := by
  by_cases h : q.cache.has "home" <;>
    simp [applyPOp, PageRegistry.home, newHomePage, h]

theorem applyPOp_getP_ok_cache (q : PageRegistry) (w : Nat) (k : String)
    (f : Factory) (v w2 : Nat) (hf : f w = (Except.ok v, w2)) :
    ((applyPOp q w (POp.getP k f)).1).cache =
      if q.cache.has k then q.cache else q.cache.set k v := by
  by_cases h : q.cache.has k <;>
    simp [applyPOp, PageRegistry.getPage, h, hf]

theorem applyPOp_getP_err_cache (q : PageRegistry) (w : Nat) (k : String)
    (f : Factory) (e : String) (w2 : Nat)
    (hf : f w = (Except.error e, w2)) :
    ((applyPOp q w (POp.getP k f)).1).cache = q.cache := by
  by_cases h : q.cache.has k <;>
    simp [applyPOp, PageRegistry.getPage, h, hf]

/-! ### Claim theorems -/

/-- C1 (cache idempotence): for a not-yet-cached key, the generic get
operation of either namespace invokes its factory exactly once across
two successive calls: the first call stores and returns exactly the
factory's single result, and the second call — with an arbitrary,
possibly different factory `g` — returns the identical value, leaves the
registry unchanged and does not advance the allocation world (so `g` is
never invoked). -/
theorem cache_idempotence (r : ServiceRegistry) (q : PageRegistry)
    (k : String) (f g : Factory) (w v w' : Nat)
    (hs : r.cache.has k = false) (hp : q.cache.has k = false)
    (hf : f w = (Except.ok v, w')) :
    r.getService k f w =
      (Except.ok (some v), { r with cache := r.cache.set k v }, w') ∧
    ServiceRegistry.getService { r with cache := r.cache.set k v } k g w' =
      (Except.ok (some v), { r with cache := r.cache.set k v }, w') ∧
    q.getPage k f w =
      (Except.ok (some v), { q with cache := q.cache.set k v }, w') ∧
    PageRegistry.getPage { q with cache := q.cache.set k v } k g w' =
      (Except.ok (some v), { q with cache := q.cache.set k v }, w') := by
  refine ⟨?_, ?_, ?_, ?_⟩
  · simp [ServiceRegistry.getService, hs, hf, Cache.get_set_self]
  · simp [ServiceRegistry.getService, Cache.has_set_self, Cache.get_set_self]
  · simp [PageRegistry.getPage, hp, hf, Cache.get_set_self]
  · simp [PageRegistry.getPage, Cache.has_set_self, Cache.get_set_self]

theorem cache_idempotence_witness :
    ServiceRegistry.getService ⟨0, 0, []⟩ "logger"
        (fun n => (Except.ok n, n + 1)) 5 =
      (Except.ok (some 5), ⟨0, 0, [("logger", 5)]⟩, 6) ∧
    ServiceRegistry.getService ⟨0, 0, [("logger", 5)]⟩ "logger"
        (fun n => (Except.ok 999, n + 77)) 6 =
      (Except.ok (some 5), ⟨0, 0, [("logger", 5)]⟩, 6) ∧
    PageRegistry.getPage ⟨1, 0, []⟩ "logger"
        (fun n => (Except.ok n, n + 1)) 5 =
      (Except.ok (some 5), ⟨1, 0, [("logger", 5)]⟩, 6) ∧
    PageRegistry.getPage ⟨1, 0, [("logger", 5)]⟩ "logger"
        (fun n => (Except.ok 999, n + 77)) 6 =
      (Except.ok (some 5), ⟨1, 0, [("logger", 5)]⟩, 6) :=
  cache_idempotence ⟨0, 0, []⟩ ⟨1, 0, []⟩ "logger"
    (fun n => (Except.ok n, n + 1)) (fun n => (Except.ok 999, n + 77))
    5 5 6 rfl rfl rfl

/-- C2 (failed-construction atomicity): for a not-yet-cached key, a
throwing factory makes `getService`/`getPage` propagate exactly that
exception, the registry — and in particular the key's absence — is
unchanged, and a subsequent call with a succeeding factory populates the
key normally. -/
theorem failed_construction_atomicity (r : ServiceRegistry)
    (q : PageRegistry) (k : String) (f g : Factory) (w w2 w3 v : Nat)
    (e : String) (hs : r.cache.has k = false) (hp : q.cache.has k = false)
    (hf : f w = (Except.error e, w2)) (hg : g w2 = (Except.ok v, w3)) :
    r.getService k f w = (Except.error e, r, w2) ∧
    ((r.getService k f w).2.1).cache.has k = false ∧
    r.getService k g w2 =
      (Except.ok (some v), { r with cache := r.cache.set k v }, w3) ∧
    q.getPage k f w = (Except.error e, q, w2) ∧
    ((q.getPage k f w).2.1).cache.has k = false ∧
    q.getPage k g w2 =
      (Except.ok (some v), { q with cache := q.cache.set k v }, w3) := by
  refine ⟨?_, ?_, ?_, ?_, ?_, ?_⟩
  · simp [ServiceRegistry.getService, hs, hf]
  · simp [ServiceRegistry.getService, hs, hf]
  · simp [ServiceRegistry.getService, hs, hg, Cache.get_set_self]
  · simp [PageRegistry.getPage, hp, hf]
  · simp [PageRegistry.getPage, hp, hf]
  · simp [PageRegistry.getPage, hp, hg, Cache.get_set_self]

theorem failed_construction_atomicity_witness :
    ServiceRegistry.getService ⟨0, 0, []⟩ "svc"
        (fun n => (Except.error "boom", n + 1)) 0 =
      (Except.error "boom", ⟨0, 0, []⟩, 1) ∧
    ((ServiceRegistry.getService ⟨0, 0, []⟩ "svc"
        (fun n => (Except.error "boom", n + 1)) 0).2.1).cache.has "svc"
      = false ∧
    ServiceRegistry.getService ⟨0, 0, []⟩ "svc"
        (fun n => (Except.ok 42, n + 1)) 1 =
      (Except.ok (some 42), ⟨0, 0, [("svc", 42)]⟩, 2) ∧
    PageRegistry.getPage ⟨1, 0, []⟩ "svc"
        (fun n => (Except.error "boom", n + 1)) 0 =
      (Except.error "boom", ⟨1, 0, []⟩, 1) ∧
    ((PageRegistry.getPage ⟨1, 0, []⟩ "svc"
        (fun n => (Except.error "boom", n + 1)) 0).2.1).cache.has "svc"
      = false ∧
    PageRegistry.getPage ⟨1, 0, []⟩ "svc"
        (fun n => (Except.ok 42, n + 1)) 1 =
      (Except.ok (some 42), ⟨1, 0, [("svc", 42)]⟩, 2) :=
  failed_construction_atomicity ⟨0, 0, []⟩ ⟨1, 0, []⟩ "svc"
    (fun n => (Except.error "boom", n + 1)) (fun n => (Except.ok 42, n + 1))
    0 1 2 42 "boom" rfl rfl rfl rfl

/-- C5 (clear-all completeness with composer forwarding): after
`AppRegistry.clearAll` the registry's cache stats report a total of 0,
and after `MultiUserRegistry.clearAll` every member registry reports a
total of 0, whatever was cached before. -/
theorem clear_all_completeness (r : AppRegistry) (m : MultiUserRegistry) :
    r.clearAll.getCacheStats.total = 0 ∧
    m.clearAll.user1.getCacheStats.total = 0 ∧
    m.clearAll.user2.getCacheStats.total = 0 ∧
    m.clearAll.user3.getCacheStats.total = 0 := by
  refine ⟨?_, ?_, ?_, ?_⟩ <;>
    simp [AppRegistry.clearAll, AppRegistry.getCacheStats,
      MultiUserRegistry.clearAll, PageRegistry.clearCache,
      ServiceRegistry.clearCache, PageRegistry.getCachedPages,
      ServiceRegistry.getCachedServices, Cache.clear, Cache.keys]

/-- C6 (namespace isolation of clearing): clearing the pages namespace
leaves every entry of the services namespace unchanged and vice versa,
and `clearCache` touches only the cache bookkeeping, never the
underlying page handle or the registry's identity. -/
theorem namespace_isolation (r : AppRegistry) (k : String) :
    r.clearPagesNamespace.services = r.services ∧
    r.clearPagesNamespace.services.cache.get k = r.services.cache.get k ∧
    r.clearServicesNamespace.pages = r.pages ∧
    r.clearServicesNamespace.pages.cache.get k = r.pages.cache.get k ∧
    r.pages.clearCache.page = r.pages.page ∧
    r.pages.clearCache.rid = r.pages.rid ∧
    r.services.clearCache.page = r.services.page ∧
    r.services.clearCache.rid = r.services.rid ∧
    r.clearPagesNamespace.page = r.page ∧
    r.clearServicesNamespace.page = r.page :=
  ⟨rfl, rfl, rfl, rfl, rfl, rfl, rfl, rfl, rfl, rfl⟩

/-- C3 counterexample: `setService` on an already-Present key silently
replaces the cached value — with key `"a"` holding value `0`, the
operation `setService "a" 1` makes the key hold `1`, so the claimed
state machine (a Present key is never replaced; transitions only via
factory or clear) is false as stated. -/
theorem per_key_state_machine_counterexample :
    ¬ perKeyOnlyLegalTransitions := by
  intro h
  have hbefore : (⟨0, 0, [("a", 0)]⟩ : ServiceRegistry).cache.get "a" =
      some 0 := by
    simp [Cache.get]
  have hget : ((applySOp ⟨0, 0, [("a", 0)]⟩ 0 (SOp.setS "a" 1)).1).cache.get
      "a" = some 1 := by
    simp [applySOp, ServiceRegistry.setService, Cache.set, Cache.get]
  have h1 := (h ⟨0, 0, [("a", 0)]⟩ 0 (SOp.setS "a" 1) "a").1 0 1 hbefore hget
  exact absurd h1 (by decide)

/-- C3 (amended per-key state machine): over the operations excluding
`setService` (the named accessors, `getPage`/`getService`, and
`clearCache`), the only reachable per-key transitions are
Absent to Present via a successful factory invocation performed by the
operation itself, and Present to Absent via an explicit clear; a Present
key is never replaced by a different value.  `setService`, by contrast,
directly inserts or overwrites its key. -/
theorem per_key_state_machine (r : ServiceRegistry) (w : Nat) (op : SOp)
    (k : String) (q : PageRegistry) (pop : POp)
    (hop : op.isSetS = false) :
    ((∀ v v', r.cache.get k = some v →
        ((applySOp r w op).1).cache.get k = some v' → v' = v) ∧
     (r.cache.get k = none → ((applySOp r w op).1).cache.get k ≠ none →
        producedByFactory op k w (((applySOp r w op).1).cache.get k)) ∧
     (∀ v, r.cache.get k = some v →
        ((applySOp r w op).1).cache.get k = none → op = SOp.clear)) ∧
    ((∀ v v', q.cache.get k = some v →
        ((applyPOp q w pop).1).cache.get k = some v' → v' = v) ∧
     (q.cache.get k = none → ((applyPOp q w pop).1).cache.get k ≠ none →
        producedByPageFactory pop k w
          (((applyPOp q w pop).1).cache.get k)) ∧
     (∀ v, q.cache.get k = some v →
        ((applyPOp q w pop).1).cache.get k = none → pop = POp.clear)) := by
  constructor
  · cases op with
    | shadow =>
        rw [applySOp_shadow_cache]
        have L := Cache.lazy_fill_step r.cache "shadow" k w
        exact ⟨L.1, fun h1 h2 => L.2.1 h1 h2,
          fun v h1 h2 => absurd h2 (L.2.2 v h1)⟩
    | waits =>
        rw [applySOp_waits_cache]
        have L := Cache.lazy_fill_step r.cache "waits" k w
        exact ⟨L.1, fun h1 h2 => L.2.1 h1 h2,
          fun v h1 h2 => absurd h2 (L.2.2 v h1)⟩
    | assertions =>
        rw [applySOp_assertions_cache]
        have L := Cache.lazy_fill_step r.cache "assertions" k w
        exact ⟨L.1, fun h1 h2 => L.2.1 h1 h2,
          fun v h1 h2 => absurd h2 (L.2.2 v h1)⟩
    | auth =>
        rw [applySOp_auth_cache]
        have L := Cache.lazy_fill_step r.cache "auth" k w
        exact ⟨L.1, fun h1 h2 => L.2.1 h1 h2,
          fun v h1 h2 => absurd h2 (L.2.2 v h1)⟩
    | userApi =>
        rw [applySOp_userApi_cache]
        have L := Cache.lazy_fill_step r.cache "userApi" k w
        exact ⟨L.1, fun h1 h2 => L.2.1 h1 h2,
          fun v h1 h2 => absurd h2 (L.2.2 v h1)⟩
    | getS k' f =>
        rcases hfw : f w with ⟨res, w2⟩
        cases res with
        | ok v =>
            rw [applySOp_getS_ok_cache r w k' f v w2 hfw]
            have L := Cache.lazy_fill_step r.cache k' k v
            refine ⟨L.1, fun h1 h2 => ?_,
              fun v2 h1 h2 => absurd h2 (L.2.2 v2 h1)⟩
            obtain ⟨hk, hget⟩ := L.2.1 h1 h2
            exact ⟨hk, v, w2, hfw, hget⟩
        | error e =>
            rw [applySOp_getS_err_cache r w k' f e w2 hfw]
            refine ⟨fun v v' h1 h2 => ?_, fun h1 h2 => absurd h1 h2,
              fun v h1 h2 => ?_⟩
            · rw [h1] at h2
              exact (Option.some_inj.mp h2).symm
            · rw [h1] at h2
              cases h2
    | setS k' v => simp [SOp.isSetS] at hop
    | clear =>
        refine ⟨fun v v' h1 h2 => ?_, fun h1 h2 => ?_,
          fun v h1 h2 => rfl⟩
        · simp [applySOp, ServiceRegistry.clearCache, Cache.clear,
            Cache.get] at h2
        · exact absurd (by
            simp [applySOp, ServiceRegistry.clearCache, Cache.clear,
              Cache.get]) h2
  · cases pop with
    | home =>
        rw [applyPOp_home_cache]
        have L := Cache.lazy_fill_step q.cache "home" k w
        exact ⟨L.1, fun h1 h2 => L.2.1 h1 h2,
          fun v h1 h2 => absurd h2 (L.2.2 v h1)⟩
    | getP k' f =>
        rcases hfw : f w with ⟨res, w2⟩
        cases res with
        | ok v =>
            rw [applyPOp_getP_ok_cache q w k' f v w2 hfw]
            have L := Cache.lazy_fill_step q.cache k' k v
            refine ⟨L.1, fun h1 h2 => ?_,
              fun v2 h1 h2 => absurd h2 (L.2.2 v2 h1)⟩
            obtain ⟨hk, hget⟩ := L.2.1 h1 h2
            exact ⟨hk, v, w2, hfw, hget⟩
        | error e =>
            rw [applyPOp_getP_err_cache q w k' f e w2 hfw]
            refine ⟨fun v v' h1 h2 => ?_, fun h1 h2 => absurd h1 h2,
              fun v h1 h2 => ?_⟩
            · rw [h1] at h2
              exact (Option.some_inj.mp h2).symm
            · rw [h1] at h2
              cases h2
    | clear =>
        refine ⟨fun v v' h1 h2 => ?_, fun h1 h2 => ?_,
          fun v h1 h2 => rfl⟩
        · simp [applyPOp, PageRegistry.clearCache, Cache.clear,
            Cache.get] at h2
        · exact absurd (by
            simp [applyPOp, PageRegistry.clearCache, Cache.clear,
              Cache.get]) h2

theorem per_key_state_machine_witness :
    ((∀ v v', (⟨0, 0, [("a", 7)]⟩ : ServiceRegistry).cache.get "a" =
          some v →
        ((applySOp ⟨0, 0, [("a", 7)]⟩ 0 SOp.clear).1).cache.get "a" =
          some v' → v' = v) ∧
     ((⟨0, 0, [("a", 7)]⟩ : ServiceRegistry).cache.get "a" = none →
        ((applySOp ⟨0, 0, [("a", 7)]⟩ 0 SOp.clear).1).cache.get "a" ≠
          none →
        producedByFactory SOp.clear "a" 0
          (((applySOp ⟨0, 0, [("a", 7)]⟩ 0 SOp.clear).1).cache.get "a")) ∧
     (∀ v, (⟨0, 0, [("a", 7)]⟩ : ServiceRegistry).cache.get "a" = some v →
        ((applySOp ⟨0, 0, [("a", 7)]⟩ 0 SOp.clear).1).cache.get "a" =
          none → SOp.clear = SOp.clear)) ∧
    ((∀ v v', (⟨1, 0, []⟩ : PageRegistry).cache.get "a" = some v →
        ((applyPOp ⟨1, 0, []⟩ 0 POp.home).1).cache.get "a" = some v' →
          v' = v) ∧
     ((⟨1, 0, []⟩ : PageRegistry).cache.get "a" = none →
        ((applyPOp ⟨1, 0, []⟩ 0 POp.home).1).cache.get "a" ≠ none →
        producedByPageFactory POp.home "a" 0
          (((applyPOp ⟨1, 0, []⟩ 0 POp.home).1).cache.get "a")) ∧
     (∀ v, (⟨1, 0, []⟩ : PageRegistry).cache.get "a" = some v →
        ((applyPOp ⟨1, 0, []⟩ 0 POp.home).1).cache.get "a" = none →
          POp.home = POp.clear)) :=
  per_key_state_machine ⟨0, 0, [("a", 7)]⟩ 0 SOp.clear "a" ⟨1, 0, []⟩
    POp.home rfl

/-- C4 counterexample: the composer does create registries itself.
Constructing a `MultiUserRegistry` from three handed pages at
allocation counter 0 ends with counter 10 (the composer object, three
`AppRegistry` objects and their six namespace registries), so the
invariant "the composer never creates registries itself, it is handed
already-constructed ones" is false. -/
theorem composer_construction_counterexample :
    ¬ composerNeverCreatesRegistries := by
  intro h
  have h0 := h 0 0 0 0
  simp [createMultiUserRegistry, createAppRegistry, createPageRegistry,
    createServiceRegistry] at h0

/-- C4 (amended composer construction): the `MultiUserRegistry`
constructor is handed three already-live session handles (pages) and
itself creates exactly three fresh member `AppRegistry` instances, one
wrapping each handed page, each starting with empty caches; afterwards
it only forwards `clearAll` to every member and aggregates
`getCacheStats` per member. -/
theorem composer_construction (p1 p2 p3 w : Nat) :
    (createMultiUserRegistry p1 p2 p3 w).1.user1 =
      (createAppRegistry p1 (w + 1)).1 ∧
    (createMultiUserRegistry p1 p2 p3 w).1.user2 =
      (createAppRegistry p2 (w + 4)).1 ∧
    (createMultiUserRegistry p1 p2 p3 w).1.user3 =
      (createAppRegistry p3 (w + 7)).1 ∧
    (createMultiUserRegistry p1 p2 p3 w).1.user1.page = p1 ∧
    (createMultiUserRegistry p1 p2 p3 w).1.user2.page = p2 ∧
    (createMultiUserRegistry p1 p2 p3 w).1.user3.page = p3 ∧
    (createMultiUserRegistry p1 p2 p3 w).1.user1.getCacheStats.total
      = 0 ∧
    (createMultiUserRegistry p1 p2 p3 w).1.user2.getCacheStats.total
      = 0 ∧
    (createMultiUserRegistry p1 p2 p3 w).1.user3.getCacheStats.total
      = 0 ∧
    (createMultiUserRegistry p1 p2 p3 w).2 = w + 10 ∧
    (∀ m : MultiUserRegistry, m.clearAll =
      ⟨m.rid, m.user1.clearAll, m.user2.clearAll, m.user3.clearAll⟩) ∧
    (∀ m : MultiUserRegistry, m.getCacheStats =
      ⟨m.user1.getCacheStats, m.user2.getCacheStats,
        m.user3.getCacheStats⟩) := by
  refine ⟨rfl, ?_, ?_, rfl, rfl, rfl, rfl, rfl, rfl, ?_, fun m => rfl,
    fun m => rfl⟩ <;>
    simp [createMultiUserRegistry, createAppRegistry, createPageRegistry,
      createServiceRegistry]

/-- C7 counterexample: a 20-hour-old artifact with the Login button
not visible on the freshly opened context does not run the login flow
(the code probes the button first), so the claim that a stale artifact
always leads to the login flow running is false as stated. -/
theorem freshness_policy_counterexample : ¬ freshnessPolicyAsStated := by
  intro h
  have hge : (12 : ℚ) ≤ hoursSinceModified 72000000 0 := by
    norm_num [hoursSinceModified]
  have h2 := (h 0 72000000 false (Except.ok ())).2 hge
  have hli := h2.1
  norm_num [authenticateUser, authAfterCheck, hoursSinceModified] at hli

/-- C7 (amended freshness policy): an artifact written less than 12
hours before now is reused — the function returns early, no login flow
runs and the artifact is untouched.  An artifact 12 hours old or more
is ignored: a fresh blank context is opened and navigated; the login
flow runs exactly when the Login button is visible there; a fresh
artifact is written whenever the login succeeds or no login was needed,
and the old artifact is left in place when the login flow throws. -/
theorem freshness_policy (mtime now : Nat) (lv : Bool)
    (lr : Except String Unit) (e : String) :
    (hoursSinceModified now mtime < 12 →
        authenticateUser (some mtime) now lv lr =
          ⟨Except.ok (), false, some mtime⟩) ∧
    (12 ≤ hoursSinceModified now mtime →
        authenticateUser (some mtime) now lv lr =
          authAfterCheck (some mtime) now lv lr) ∧
    (12 ≤ hoursSinceModified now mtime →
        authenticateUser (some mtime) now true (Except.ok ()) =
          ⟨Except.ok (), true, some now⟩) ∧
    (12 ≤ hoursSinceModified now mtime →
        authenticateUser (some mtime) now false lr =
          ⟨Except.ok (), false, some now⟩) ∧
    (12 ≤ hoursSinceModified now mtime →
        authenticateUser (some mtime) now true (Except.error e) =
          ⟨Except.error e, true, some mtime⟩) := by
  refine ⟨fun h1 => ?_, fun h1 => ?_, fun h1 => ?_, fun h1 => ?_,
    fun h1 => ?_⟩
  · simp [authenticateUser, h1]
  · simp [authenticateUser, not_lt.mpr h1]
  · simp [authenticateUser, not_lt.mpr h1, authAfterCheck]
  · simp [authenticateUser, not_lt.mpr h1, authAfterCheck]
  · simp [authenticateUser, not_lt.mpr h1, authAfterCheck]

theorem freshness_policy_witness :
    authenticateUser (some 0) 3600000 false (Except.ok ()) =
      ⟨Except.ok (), false, some 0⟩ ∧
    authenticateUser (some 0) 72000000 true (Except.ok ()) =
      ⟨Except.ok (), true, some 72000000⟩ :=
  ⟨(freshness_policy 0 3600000 false (Except.ok ()) "").1
      (by norm_num [hoursSinceModified]),
   (freshness_policy 0 72000000 true (Except.ok ()) "").2.2.1
      (by norm_num [hoursSinceModified])⟩

/-- C8 (authentication failure atomicity): when no email-input selector
is visible, `enterEmail` rejects with the error naming the missing
affordance; and in the setup flow, when the login flow throws, the
exception propagates and no credential artifact is written (the
storage-state save only happens after a successful login or when no
login was needed). -/
theorem auth_failure_atomicity (ev nv : String → Bool)
    (hE : ∀ s ∈ emailSelectors, ev s = false) (now : Nat) (e : String) :
    enterEmail ev nv = Except.error "Could not find email input field" ∧
    authenticateUser none now true (Except.error e) =
      ⟨Except.error e, true, none⟩ := by
  constructor
  · have hloop : ∀ l, (∀ s ∈ l, ev s = false) →
        enterEmailLoop ev nv l =
          Except.error "Could not find email input field" := by
      intro l
      induction l with
      | nil => intro _; rfl
      | cons s rest ih =>
          intro hl
          have hs := hl s (by simp)
          simp [enterEmailLoop, hs]
          exact ih fun s2 hs2 => hl s2 (by simp [hs2])
    exact hloop emailSelectors hE
  · simp [authenticateUser, authAfterCheck]

theorem auth_failure_atomicity_witness :
    enterEmail (fun _ => false) (fun _ => true) =
      Except.error "Could not find email input field" ∧
    authenticateUser none 0 true (Except.error "login failed") =
      ⟨Except.error "login failed", true, none⟩ :=
  auth_failure_atomicity (fun _ => false) (fun _ => true)
    (fun _ _ => rfl) 0 "login failed"

/-- C9 (authentication idempotence): when the Login button probe reports
not visible, the page fixture performs no SSO login and no click toward
the identity provider and hands the page over unchanged; likewise the
setup flow never invokes the login helper when the button is not
visible. -/
theorem authentication_idempotence (p : Nat) (creds : Bool)
    (lr : Except String Unit) (artifact : Option Nat) (now : Nat)
    (lr2 : Except String Unit) :
    user1PageFixture p false creds lr = Except.ok ⟨p, false, false⟩ ∧
    (authenticateUser artifact now false lr2).loginInvoked = false := by
  constructor
  · rfl
  · cases artifact with
    | none => rfl
    | some mtime =>
        by_cases h : hoursSinceModified now mtime < 12 <;>
          simp [authenticateUser, authAfterCheck, h]

/-- C10 (fixture registry independence): the per-user registry fixtures
and the combined composer fixture construct distinct `AppRegistry`
instances (different object ids) over the same pages, and the
composer's `clearAll` leaves every per-user fixture registry unchanged,
and vice versa. -/
theorem fixture_registry_independence (p1 p2 p3 w : Nat)
    (fw : FixtureWorld) :
    (setupFixtures p1 p2 p3 w).1.registry.user1.rid ≠
      (setupFixtures p1 p2 p3 w).1.user1Registry.rid ∧
    (setupFixtures p1 p2 p3 w).1.registry.user2.rid ≠
      (setupFixtures p1 p2 p3 w).1.user2Registry.rid ∧
    (setupFixtures p1 p2 p3 w).1.registry.user3.rid ≠
      (setupFixtures p1 p2 p3 w).1.user3Registry.rid ∧
    (setupFixtures p1 p2 p3 w).1.registry.user1.page =
      (setupFixtures p1 p2 p3 w).1.user1Registry.page ∧
    (setupFixtures p1 p2 p3 w).1.registry.user2.page =
      (setupFixtures p1 p2 p3 w).1.user2Registry.page ∧
    (setupFixtures p1 p2 p3 w).1.registry.user3.page =
      (setupFixtures p1 p2 p3 w).1.user3Registry.page ∧
    fw.composerClearAll.user1Registry = fw.user1Registry ∧
    fw.composerClearAll.user2Registry = fw.user2Registry ∧
    fw.composerClearAll.user3Registry = fw.user3Registry ∧
    fw.usersClearAll.registry = fw.registry := by
  refine ⟨?_, ?_, ?_, rfl, rfl, rfl, rfl, rfl, rfl, rfl⟩ <;>
    · simp [setupFixtures, createAppRegistry, createPageRegistry,
        createServiceRegistry, createMultiUserRegistry]
      omega
